import Mathlib

/-!
Verification of the scoped formatting-settings engine in src/src/emitterstate.cpp
(class EmitterState of the yaml-cpp emitter).

The companion header emitterstate.h (with Setting, SettingChanges, Group, _Set,
GetIndent and SetError) is not among the sources; those parts are modelled from
the spec, and each such definition carries a doc comment saying so.  Everything
else is translated directly from emitterstate.cpp.

Modelling conventions:
- the fourteen Setting members of EmitterState become one map
  opts : OptionId -> SettingValue, with one OptionId constructor per member,
  named after it (m_charset, m_strFmt, ...);
- EMITTER_MANIP values, unsigned values and int values are wrapped in the sum
  type SettingValue so the modified-settings logs can be uniform, as the
  SettingChange objects are in the original;
- every operation is a pure function on EmitterState; setters return the C++
  bool result paired with the new state.
-/

namespace YamlCpp

/-- The manipulator enumeration, restricted to the constants emitterstate.cpp
mentions. -/
inductive EMITTER_MANIP where
  | EmitNonAscii
  | EscapeNonAscii
  | Auto
  | SingleQuoted
  | DoubleQuoted
  | Literal
  | OnOffBool
  | TrueFalseBool
  | YesNoBool
  | LongBool
  | ShortBool
  | UpperCase
  | LowerCase
  | CamelCase
  | Dec
  | Hex
  | Oct
  | Block
  | Flow
  | LongKey
deriving DecidableEq, Repr

/-- FmtScope::value from the header, as used by emitterstate.cpp. -/
inductive FmtScope where
  | Local
  | Global
deriving DecidableEq, Repr

/-- GroupType::value: Seq, Map, and the None returned by CurGroupType on an
empty stack. -/
inductive GroupType where
  | None
  | Seq
  | Map
deriving DecidableEq, Repr

/-- FlowType::value returned by CurGroupFlowType. -/
inductive FlowType where
  | None
  | Block
  | Flow
deriving DecidableEq, Repr

/-- A stored setting value: manipulator, unsigned or int, matching the three
Setting instantiations of EmitterState. -/
inductive SettingValue where
  | manip (m : EMITTER_MANIP)
  | nat (n : Nat)
  | int (i : Int)
deriving DecidableEq, Repr

/-- One constructor per Setting member of EmitterState, named after it. -/
inductive OptionId where
  | m_charset
  | m_strFmt
  | m_boolFmt
  | m_boolLengthFmt
  | m_boolCaseFmt
  | m_intFmt
  | m_indent
  | m_preCommentIndent
  | m_postCommentIndent
  | m_seqFmt
  | m_mapFmt
  | m_mapKeyFmt
  | m_floatPrecision
  | m_doublePrecision
deriving DecidableEq, Repr

/-- Unwrap a manipulator value; the layout options only ever hold manip
values, so the default branch is unreachable on states built by the API. -/
def manipOf : SettingValue → EMITTER_MANIP
  | .manip m => m
  | _ => .Auto

/-- Unwrap an unsigned value; m_indent only ever holds nat values. -/
def natOf : SettingValue → Nat
  | .nat n => n
  | _ => 0

/-- Modelled from the spec: the Group record of the missing header, per
section 3 of the spec — kind, chosen layout, indent, child count starting at
0, and the saved snapshot of locally modified settings.  The snapshot stores,
for each option recorded, the value to reinstate when the group closes. -/
structure Group where
  type : GroupType
  flow : EMITTER_MANIP
  indent : Nat
  childCount : Nat
  modifiedSettings : List (OptionId × SettingValue)
deriving DecidableEq, Repr

/-- The EmitterState members visible in emitterstate.cpp: the good flag and
error message, the running indent accumulator, the two per-node flags, the
fourteen Setting members (as the opts map), the pending local log, the global
log, and the group stack (head is the top). -/
structure EmitterState where
  isGood : Bool
  lastError : Option String
  curIndent : Nat
  hasAnchor : Bool
  hasTag : Bool
  opts : OptionId → SettingValue
  modifiedSettings : List (OptionId × SettingValue)
  globalModifiedSettings : List (OptionId × SettingValue)
  groups : List Group

/-- ErrorMsg::UNMATCHED_GROUP_TAG of the missing common header; the spec calls
it UnmatchedGroupTag. -/
def UNMATCHED_GROUP_TAG : String := "unmatched group tag"

/-- The EmitterState constructor, emitterstate.cpp lines 7-24: good state,
zero indent accumulator, flags false, documented defaults for every option,
empty logs and empty stack. -/
def initState : EmitterState where
  isGood := true
  lastError := none
  curIndent := 0
  hasAnchor := false
  hasTag := false
  opts := fun o =>
    match o with
    | .m_charset => .manip .EmitNonAscii
    | .m_strFmt => .manip .Auto
    | .m_boolFmt => .manip .TrueFalseBool
    | .m_boolLengthFmt => .manip .LongBool
    | .m_boolCaseFmt => .manip .LowerCase
    | .m_intFmt => .manip .Dec
    | .m_indent => .nat 2
    | .m_preCommentIndent => .nat 2
    | .m_postCommentIndent => .nat 1
    | .m_seqFmt => .manip .Block
    | .m_mapFmt => .manip .Block
    | .m_mapKeyFmt => .manip .Auto
    | .m_floatPrecision => .int 6
    | .m_doublePrecision => .int 15
  modifiedSettings := []
  globalModifiedSettings := []
  groups := []

/-- Write one option value. -/
def setOpt (s : EmitterState) (o : OptionId) (v : SettingValue) : EmitterState :=
  { s with opts := Function.update s.opts o v }

/-- First entry of an association list for a given option, mirroring how a
SettingChanges vector is searched per option. -/
def lookupAssoc (l : List (OptionId × SettingValue)) (o : OptionId) : Option SettingValue :=
  match l with
  | [] => none
  | p :: rest => if p.1 = o then some p.2 else lookupAssoc rest o

/-- Replace the entry for an option, or append one. -/
def updateAssoc (l : List (OptionId × SettingValue)) (o : OptionId) (v : SettingValue) :
    List (OptionId × SettingValue) :=
  match l with
  | [] => [(o, v)]
  | p :: rest => if p.1 = o then (o, v) :: rest else p :: updateAssoc rest o v

/-- Modelled from the spec: SettingChanges::restore of the missing header.
Section 4.2 — reinstate the recorded value of every option in the log.  The
entries are applied in order, as the original iterates its vector. -/
def restore (f : OptionId → SettingValue) (log : List (OptionId × SettingValue)) :
    OptionId → SettingValue :=
  log.foldl (fun g p => Function.update g p.1 p.2) f

/-- Modelled from the spec: recording a local change in the pending log,
section 4.2 — Record is idempotent, one undo record per option, keeping the
value the option had before the first local set since the last checkpoint. -/
def recordLocal (s : EmitterState) (o : OptionId) : EmitterState :=
  match lookupAssoc s.modifiedSettings o with
  | some _ => s
  | none => { s with modifiedSettings := (o, s.opts o) :: s.modifiedSettings }

/-- Modelled from the spec: the _Set template of the missing header.  A Local
set records the option in the pending modified-settings log and writes the
value; a Global set writes the value and records the new value in
m_globalModifiedSettings, so that the restore call at the end of EndGroup
(emitterstate.cpp lines 96-98: global settings that were overridden by a
popped local setting need to be restored) reinstates it — per section 4.1,
global changes are never undone by EndGroup. -/
def _Set (s : EmitterState) (o : OptionId) (v : SettingValue) (scope : FmtScope) :
    EmitterState :=
  match scope with
  | .Local => setOpt (recordLocal s o) o v
  | .Global =>
      { setOpt s o v with
        globalModifiedSettings := updateAssoc s.globalModifiedSettings o v }

/-- Modelled from the spec: SetError of the missing header, section 7 — set
the sticky failure flag and keep a human-readable message. -/
def SetError (s : EmitterState) (msg : String) : EmitterState :=
  { s with isGood := false, lastError := some msg }

/-- emitterstate.cpp lines 46-53. -/
def BeginNode (s : EmitterState) : EmitterState :=
  let s :=
    match s.groups with
    | [] => s
    | g :: rest => { s with groups := { g with childCount := g.childCount + 1 } :: rest }
  { s with hasAnchor := false, hasTag := false }

/-- emitterstate.cpp lines 55-58. -/
def BeginScalar (s : EmitterState) : EmitterState :=
  BeginNode s

/-- emitterstate.cpp lines 101-107. -/
def CurGroupType (s : EmitterState) : GroupType :=
  match s.groups with
  | [] => GroupType.None
  | g :: _ => g.type

/-- emitterstate.cpp lines 109-115. -/
def CurGroupFlowType (s : EmitterState) : FlowType :=
  match s.groups with
  | [] => FlowType.None
  | g :: _ => if g.flow = EMITTER_MANIP.Flow then FlowType.Flow else FlowType.Block

/-- emitterstate.cpp lines 117-120. -/
def CurGroupIndent (s : EmitterState) : Nat :=
  match s.groups with
  | [] => 0
  | g :: _ => g.indent

/-- emitterstate.cpp lines 122-125. -/
def CurGroupChildCount (s : EmitterState) : Nat :=
  match s.groups with
  | [] => 0
  | g :: _ => g.childCount

/-- emitterstate.cpp lines 248-256: force flow style when currently in a
flow, otherwise use the configured default for the group type (the seq
default for Seq, the map default otherwise, as in the original ternary). -/
def GetFlowType (s : EmitterState) (groupType : GroupType) : EMITTER_MANIP :=
  if CurGroupFlowType s = FlowType.Flow then EMITTER_MANIP.Flow
  else manipOf (s.opts (if groupType = GroupType.Seq then OptionId.m_seqFmt else OptionId.m_mapFmt))

/-- Modelled from the spec: GetIndent of the missing header.  Section 4.3
step 2 — the absolute indent of a new context is the indent of the enclosing
context (0 if none) plus the currently configured indent width. -/
def GetIndent (s : EmitterState) : Nat :=
  CurGroupIndent s + natOf (s.opts OptionId.m_indent)

/-- emitterstate.cpp lines 60-77: treat the group as a node emission, grow
the indent accumulator by the enclosing group indent, transfer the pending
modified settings into the new group (they last until this group is done),
compute the group layout and indent, and push it.  The child count starts at
0, per the Group record of section 3 of the spec. -/
def BeginGroup (s : EmitterState) (type : GroupType) : EmitterState :=
  let s := BeginNode s
  let lastGroupIndent :=
    match s.groups with
    | [] => 0
    | g :: _ => g.indent
  let s := { s with curIndent := s.curIndent + lastGroupIndent }
  let g : Group :=
    { type := type
      flow := GetFlowType s type
      indent := GetIndent s
      childCount := 0
      modifiedSettings := s.modifiedSettings }
  { s with modifiedSettings := [], groups := g :: s.groups }

/-- emitterstate.cpp lines 79-99: error on an empty stack; pop the top group,
then error if its type does not match; otherwise reinstate the values the
popped group recorded as locally modified (the destruction of the popped
Group, modelled from section 4.2 and 4.3 of the spec), shrink the indent
accumulator by the new top group indent, and re-apply the recorded global
changes (lines 96-98).  On the type-mismatch error the function returns right
away: the indent adjustment and the restores are skipped. -/
def EndGroup (s : EmitterState) (type : GroupType) : EmitterState :=
  match s.groups with
  | [] => SetError s UNMATCHED_GROUP_TAG
  | pFinishedGroup :: rest =>
    let s := { s with groups := rest }
    if pFinishedGroup.type ≠ type then SetError s UNMATCHED_GROUP_TAG
    else
      let s := { s with opts := restore s.opts pFinishedGroup.modifiedSettings }
      let lastIndent :=
        match rest with
        | [] => 0
        | g :: _ => g.indent
      let s := { s with curIndent := s.curIndent - lastIndent }
      { s with opts := restore s.opts s.globalModifiedSettings }

/-- emitterstate.cpp lines 127-130. -/
def ClearModifiedSettings (s : EmitterState) : EmitterState :=
  { s with modifiedSettings := [] }

/-- emitterstate.cpp lines 132-142. -/
def SetOutputCharset (s : EmitterState) (value : EMITTER_MANIP) (scope : FmtScope) :
    Bool × EmitterState :=
  match value with
  | .EmitNonAscii | .EscapeNonAscii => (true, _Set s .m_charset (.manip value) scope)
  | _ => (false, s)

/-- emitterstate.cpp lines 144-156. -/
def SetStringFormat (s : EmitterState) (value : EMITTER_MANIP) (scope : FmtScope) :
    Bool × EmitterState :=
  match value with
  | .Auto | .SingleQuoted | .DoubleQuoted | .Literal =>
      (true, _Set s .m_strFmt (.manip value) scope)
  | _ => (false, s)

/-- emitterstate.cpp lines 158-169. -/
def SetBoolFormat (s : EmitterState) (value : EMITTER_MANIP) (scope : FmtScope) :
    Bool × EmitterState :=
  match value with
  | .OnOffBool | .TrueFalseBool | .YesNoBool =>
      (true, _Set s .m_boolFmt (.manip value) scope)
  | _ => (false, s)

/-- emitterstate.cpp lines 171-181. -/
def SetBoolLengthFormat (s : EmitterState) (value : EMITTER_MANIP) (scope : FmtScope) :
    Bool × EmitterState :=
  match value with
  | .LongBool | .ShortBool => (true, _Set s .m_boolLengthFmt (.manip value) scope)
  | _ => (false, s)

/-- emitterstate.cpp lines 183-194. -/
def SetBoolCaseFormat (s : EmitterState) (value : EMITTER_MANIP) (scope : FmtScope) :
    Bool × EmitterState :=
  match value with
  | .UpperCase | .LowerCase | .CamelCase =>
      (true, _Set s .m_boolCaseFmt (.manip value) scope)
  | _ => (false, s)

/-- emitterstate.cpp lines 196-207. -/
def SetIntFormat (s : EmitterState) (value : EMITTER_MANIP) (scope : FmtScope) :
    Bool × EmitterState :=
  match value with
  | .Dec | .Hex | .Oct => (true, _Set s .m_intFmt (.manip value) scope)
  | _ => (false, s)

/-- emitterstate.cpp lines 209-216: an unsigned value, zero rejected. -/
def SetIndent (s : EmitterState) (value : Nat) (scope : FmtScope) :
    Bool × EmitterState :=
  if value = 0 then (false, s)
  else (true, _Set s .m_indent (.nat value) scope)

/-- emitterstate.cpp lines 218-225. -/
def SetPreCommentIndent (s : EmitterState) (value : Nat) (scope : FmtScope) :
    Bool × EmitterState :=
  if value = 0 then (false, s)
  else (true, _Set s .m_preCommentIndent (.nat value) scope)

/-- emitterstate.cpp lines 227-234. -/
def SetPostCommentIndent (s : EmitterState) (value : Nat) (scope : FmtScope) :
    Bool × EmitterState :=
  if value = 0 then (false, s)
  else (true, _Set s .m_postCommentIndent (.nat value) scope)

/-- emitterstate.cpp lines 236-246: Block and Flow are accepted; the target
option is the seq default for Seq and the map default otherwise, as in the
original ternary. -/
def SetFlowType (s : EmitterState) (groupType : GroupType) (value : EMITTER_MANIP)
    (scope : FmtScope) : Bool × EmitterState :=
  match value with
  | .Block | .Flow =>
      (true, _Set s (if groupType = GroupType.Seq then .m_seqFmt else .m_mapFmt)
        (.manip value) scope)
  | _ => (false, s)

/-- emitterstate.cpp lines 258-268. -/
def SetMapKeyFormat (s : EmitterState) (value : EMITTER_MANIP) (scope : FmtScope) :
    Bool × EmitterState :=
  match value with
  | .Auto | .LongKey => (true, _Set s .m_mapKeyFmt (.manip value) scope)
  | _ => (false, s)

/-- std::numeric_limits of float, digits10: the representable decimal digits
of IEEE single precision, from the limits header the source includes. -/
def floatDigits10 : Int := 6

/-- std::numeric_limits of double, digits10: the representable decimal digits
of IEEE double precision. -/
def doubleDigits10 : Int := 15

/-- emitterstate.cpp lines 270-276. -/
def SetFloatPrecision (s : EmitterState) (value : Int) (scope : FmtScope) :
    Bool × EmitterState :=
  if value < 0 ∨ floatDigits10 < value then (false, s)
  else (true, _Set s .m_floatPrecision (.int value) scope)

/-- emitterstate.cpp lines 278-284. -/
def SetDoublePrecision (s : EmitterState) (value : Int) (scope : FmtScope) :
    Bool × EmitterState :=
  if value < 0 ∨ doubleDigits10 < value then (false, s)
  else (true, _Set s .m_doublePrecision (.int value) scope)

/-- emitterstate.cpp lines 33-44: blindly try every formatter at Local scope,
in source order; only the ones for which the value makes sense accept it. -/
def SetLocalValue (s : EmitterState) (value : EMITTER_MANIP) : EmitterState :=
  let s := (SetOutputCharset s value .Local).2
  let s := (SetStringFormat s value .Local).2
  let s := (SetBoolFormat s value .Local).2
  let s := (SetBoolCaseFormat s value .Local).2
  let s := (SetBoolLengthFormat s value .Local).2
  let s := (SetIntFormat s value .Local).2
  let s := (SetFlowType s GroupType.Seq value .Local).2
  let s := (SetFlowType s GroupType.Map value .Local).2
  (SetMapKeyFormat s value .Local).2

/-- One call of the public mutation and structure API, for reasoning about
arbitrary call sequences. -/
inductive EmitterOp where
  | beginNode
  | beginScalar
  | beginGroup (type : GroupType)
  | endGroup (type : GroupType)
  | clearModifiedSettings
  | setOutputCharset (value : EMITTER_MANIP) (scope : FmtScope)
  | setStringFormat (value : EMITTER_MANIP) (scope : FmtScope)
  | setBoolFormat (value : EMITTER_MANIP) (scope : FmtScope)
  | setBoolLengthFormat (value : EMITTER_MANIP) (scope : FmtScope)
  | setBoolCaseFormat (value : EMITTER_MANIP) (scope : FmtScope)
  | setIntFormat (value : EMITTER_MANIP) (scope : FmtScope)
  | setIndent (value : Nat) (scope : FmtScope)
  | setPreCommentIndent (value : Nat) (scope : FmtScope)
  | setPostCommentIndent (value : Nat) (scope : FmtScope)
  | setFlowType (groupType : GroupType) (value : EMITTER_MANIP) (scope : FmtScope)
  | setMapKeyFormat (value : EMITTER_MANIP) (scope : FmtScope)
  | setFloatPrecision (value : Int) (scope : FmtScope)
  | setDoublePrecision (value : Int) (scope : FmtScope)
  | setLocalValue (value : EMITTER_MANIP)
deriving DecidableEq, Repr

/-- Apply one API call to the state, dropping the bool result of a setter. -/
def applyOp (s : EmitterState) (e : EmitterOp) : EmitterState :=
  match e with
  | .beginNode => BeginNode s
  | .beginScalar => BeginScalar s
  | .beginGroup t => BeginGroup s t
  | .endGroup t => EndGroup s t
  | .clearModifiedSettings => ClearModifiedSettings s
  | .setOutputCharset v sc => (SetOutputCharset s v sc).2
  | .setStringFormat v sc => (SetStringFormat s v sc).2
  | .setBoolFormat v sc => (SetBoolFormat s v sc).2
  | .setBoolLengthFormat v sc => (SetBoolLengthFormat s v sc).2
  | .setBoolCaseFormat v sc => (SetBoolCaseFormat s v sc).2
  | .setIntFormat v sc => (SetIntFormat s v sc).2
  | .setIndent v sc => (SetIndent s v sc).2
  | .setPreCommentIndent v sc => (SetPreCommentIndent s v sc).2
  | .setPostCommentIndent v sc => (SetPostCommentIndent s v sc).2
  | .setFlowType gt v sc => (SetFlowType s gt v sc).2
  | .setMapKeyFormat v sc => (SetMapKeyFormat s v sc).2
  | .setFloatPrecision v sc => (SetFloatPrecision s v sc).2
  | .setDoublePrecision v sc => (SetDoublePrecision s v sc).2
  | .setLocalValue v => SetLocalValue s v

/-- Run a sequence of API calls. -/
def runOps (s : EmitterState) (ops : List EmitterOp) : EmitterState :=
  ops.foldl applyOp s

/-- Nesting depth tracking of a call sequence, relative to a starting depth:
beginGroup opens one level, endGroup closes one and is refused at relative
depth zero (it would close the enclosing context).  Returns the final
relative depth, or none when some endGroup would cross the starting level. -/
def trackDepth : Nat → List EmitterOp → Option Nat
  | d, [] => some d
  | d, e :: rest =>
    match e with
    | .beginGroup _ => trackDepth (d + 1) rest
    | .endGroup _ => if d = 0 then none else trackDepth (d - 1) rest
    | _ => trackDepth d rest

theorem restore_cons (f : OptionId → SettingValue) (p : OptionId × SettingValue)
    (rest : List (OptionId × SettingValue)) :
    restore f (p :: rest) = restore (Function.update f p.1 p.2) rest := rfl

theorem lookupAssoc_eq_none (log : List (OptionId × SettingValue)) (o : OptionId)
    (h : o ∉ log.map Prod.fst) : lookupAssoc log o = none := by
  induction log with
  | nil => rfl
  | cons p rest ih =>
    simp only [List.map_cons, List.mem_cons] at h
    push_neg at h
    simp only [lookupAssoc]
    rw [if_neg (fun hp => h.1 hp.symm)]
    exact ih h.2

theorem restore_lookup_none (log : List (OptionId × SettingValue)) (o : OptionId)
    (f : OptionId → SettingValue) (h : lookupAssoc log o = none) :
    restore f log o = f o := by
  induction log generalizing f with
  | nil => rfl
  | cons p rest ih =>
    simp only [lookupAssoc] at h
    by_cases hp : p.1 = o
    · simp [hp] at h
    · rw [if_neg hp] at h
      rw [restore_cons, ih _ h, Function.update_noteq (Ne.symm hp)]

theorem restore_lookup_some (log : List (OptionId × SettingValue)) (o : OptionId)
    (v : SettingValue) (f : OptionId → SettingValue)
    (hnd : (log.map Prod.fst).Nodup) (h : lookupAssoc log o = some v) :
    restore f log o = v := by
  induction log generalizing f with
  | nil => simp [lookupAssoc] at h
  | cons p rest ih =>
    simp only [List.map_cons, List.nodup_cons] at hnd
    simp only [lookupAssoc] at h
    by_cases hp : p.1 = o
    · rw [if_pos hp] at h
      have hnone : lookupAssoc rest o = none := lookupAssoc_eq_none rest o (hp ▸ hnd.1)
      rw [restore_cons, restore_lookup_none rest o _ hnone, hp,
        Function.update_same]
      exact Option.some.inj h
    · rw [if_neg hp] at h
      rw [restore_cons]
      exact ih (Function.update f p.1 p.2) hnd.2 h

theorem recordLocal_groups (s : EmitterState) (o : OptionId) :
    (recordLocal s o).groups = s.groups := by
  unfold recordLocal
  cases lookupAssoc s.modifiedSettings o <;> rfl

theorem _Set_groups (s : EmitterState) (o : OptionId) (v : SettingValue)
    (sc : FmtScope) : (_Set s o v sc).groups = s.groups := by
  cases sc
  · simp only [_Set, setOpt]
    exact recordLocal_groups s o
  · rfl

theorem SetOutputCharset_groups (s : EmitterState) (v : EMITTER_MANIP) (sc : FmtScope) :
    (SetOutputCharset s v sc).2.groups = s.groups := by
  cases v <;> first | rfl | exact _Set_groups ..

theorem SetStringFormat_groups (s : EmitterState) (v : EMITTER_MANIP) (sc : FmtScope) :
    (SetStringFormat s v sc).2.groups = s.groups := by
  cases v <;> first | rfl | exact _Set_groups ..

theorem SetBoolFormat_groups (s : EmitterState) (v : EMITTER_MANIP) (sc : FmtScope) :
    (SetBoolFormat s v sc).2.groups = s.groups := by
  cases v <;> first | rfl | exact _Set_groups ..

theorem SetBoolLengthFormat_groups (s : EmitterState) (v : EMITTER_MANIP) (sc : FmtScope) :
    (SetBoolLengthFormat s v sc).2.groups = s.groups := by
  cases v <;> first | rfl | exact _Set_groups ..

theorem SetBoolCaseFormat_groups (s : EmitterState) (v : EMITTER_MANIP) (sc : FmtScope) :
    (SetBoolCaseFormat s v sc).2.groups = s.groups := by
  cases v <;> first | rfl | exact _Set_groups ..

theorem SetIntFormat_groups (s : EmitterState) (v : EMITTER_MANIP) (sc : FmtScope) :
    (SetIntFormat s v sc).2.groups = s.groups := by
  cases v <;> first | rfl | exact _Set_groups ..

theorem SetIndent_groups (s : EmitterState) (v : Nat) (sc : FmtScope) :
    (SetIndent s v sc).2.groups = s.groups := by
  unfold SetIndent
  split
  · rfl
  · exact _Set_groups ..

theorem SetPreCommentIndent_groups (s : EmitterState) (v : Nat) (sc : FmtScope) :
    (SetPreCommentIndent s v sc).2.groups = s.groups := by
  unfold SetPreCommentIndent
  split
  · rfl
  · exact _Set_groups ..

theorem SetPostCommentIndent_groups (s : EmitterState) (v : Nat) (sc : FmtScope) :
    (SetPostCommentIndent s v sc).2.groups = s.groups := by
  unfold SetPostCommentIndent
  split
  · rfl
  · exact _Set_groups ..

theorem SetFlowType_groups (s : EmitterState) (gt : GroupType) (v : EMITTER_MANIP)
    (sc : FmtScope) : (SetFlowType s gt v sc).2.groups = s.groups := by
  cases v <;> first | rfl | exact _Set_groups ..

theorem SetMapKeyFormat_groups (s : EmitterState) (v : EMITTER_MANIP) (sc : FmtScope) :
    (SetMapKeyFormat s v sc).2.groups = s.groups := by
  cases v <;> first | rfl | exact _Set_groups ..

theorem SetFloatPrecision_groups (s : EmitterState) (v : Int) (sc : FmtScope) :
    (SetFloatPrecision s v sc).2.groups = s.groups := by
  unfold SetFloatPrecision
  split
  · rfl
  · exact _Set_groups ..

theorem SetDoublePrecision_groups (s : EmitterState) (v : Int) (sc : FmtScope) :
    (SetDoublePrecision s v sc).2.groups = s.groups := by
  unfold SetDoublePrecision
  split
  · rfl
  · exact _Set_groups ..

theorem SetLocalValue_groups (s : EmitterState) (v : EMITTER_MANIP) :
    (SetLocalValue s v).groups = s.groups := by
  unfold SetLocalValue
  rw [SetMapKeyFormat_groups, SetFlowType_groups, SetFlowType_groups,
    SetIntFormat_groups, SetBoolLengthFormat_groups, SetBoolCaseFormat_groups,
    SetBoolFormat_groups, SetStringFormat_groups, SetOutputCharset_groups]

theorem BeginNode_groups_decomp (s : EmitterState) (stk : List Group) (C : Group)
    (base : List Group) (h : s.groups = stk ++ C :: base) :
    ∃ stk2 C2, (BeginNode s).groups = stk2 ++ C2 :: base ∧ stk2.length = stk.length ∧
      C2.type = C.type ∧ C2.flow = C.flow ∧ C2.indent = C.indent ∧
      C2.modifiedSettings = C.modifiedSettings := by
  cases stk with
  | nil =>
    refine ⟨[], { C with childCount := C.childCount + 1 }, ?_, rfl, rfl, rfl, rfl, rfl⟩
    simp only [List.nil_append] at h ⊢
    simp [BeginNode, h]
  | cons g stk2 =>
    refine ⟨{ g with childCount := g.childCount + 1 } :: stk2, C, ?_, by simp, rfl, rfl,
      rfl, rfl⟩
    simp only [List.cons_append] at h
    simp [BeginNode, h]

theorem BeginGroup_groups (s : EmitterState) (t : GroupType) :
    ∃ g, (BeginGroup s t).groups = g :: (BeginNode s).groups :=
  ⟨_, rfl⟩

theorem EndGroup_groups_cons (s : EmitterState) (t : GroupType) (g : Group)
    (rest : List Group) (h : s.groups = g :: rest) :
    (EndGroup s t).groups = rest := by
  simp only [EndGroup, h]
  split
  · rfl
  · rfl

/-- While a call sequence keeps the enclosing context open (its relative
nesting depth never crosses the starting level), everything below the running
stack slice is untouched, and the enclosing context keeps its type, layout,
indent and saved modified-settings snapshot — only its child count can
change. -/
theorem runOps_keeps_enclosing (L : List EmitterOp) :
    ∀ (d d' : Nat) (s : EmitterState) (stk : List Group) (C : Group) (base : List Group),
      trackDepth d L = some d' →
      s.groups = stk ++ C :: base →
      stk.length = d →
      ∃ stk' C', (runOps s L).groups = stk' ++ C' :: base ∧ stk'.length = d' ∧
        C'.type = C.type ∧ C'.flow = C.flow ∧ C'.indent = C.indent ∧
        C'.modifiedSettings = C.modifiedSettings := by
  induction L with
  | nil =>
    intro d d' s stk C base ht hg hl
    simp only [trackDepth] at ht
    exact ⟨stk, C, hg, by rw [hl]; exact Option.some.inj ht, rfl, rfl, rfl, rfl⟩
  | cons e rest ih =>
    intro d d' s stk C base ht hg hl
    show ∃ stk' C', (runOps (applyOp s e) rest).groups = stk' ++ C' :: base ∧ _
    cases e with
    | beginNode =>
      obtain ⟨stk2, C2, h2, hlen2, ht2, hf2, hi2, hm2⟩ :=
        BeginNode_groups_decomp s stk C base hg
      obtain ⟨stk', C', h', hlen', ht', hf', hi', hm'⟩ :=
        ih d d' _ stk2 C2 base (by simpa [trackDepth] using ht) h2 (hlen2.trans hl)
      exact ⟨stk', C', h', hlen', ht'.trans ht2, hf'.trans hf2, hi'.trans hi2,
        hm'.trans hm2⟩
    | beginScalar =>
      obtain ⟨stk2, C2, h2, hlen2, ht2, hf2, hi2, hm2⟩ :=
        BeginNode_groups_decomp s stk C base hg
      obtain ⟨stk', C', h', hlen', ht', hf', hi', hm'⟩ :=
        ih d d' _ stk2 C2 base (by simpa [trackDepth] using ht) h2 (hlen2.trans hl)
      exact ⟨stk', C', h', hlen', ht'.trans ht2, hf'.trans hf2, hi'.trans hi2,
        hm'.trans hm2⟩
    | beginGroup t =>
      obtain ⟨stk2, C2, h2, hlen2, ht2, hf2, hi2, hm2⟩ :=
        BeginNode_groups_decomp s stk C base hg
      obtain ⟨g, hgg⟩ := BeginGroup_groups s t
      obtain ⟨stk', C', h', hlen', ht', hf', hi', hm'⟩ :=
        ih (d + 1) d' (BeginGroup s t) (g :: stk2) C2 base (by simpa [trackDepth] using ht)
          (by simp [hgg, h2]) (by simp [hlen2.trans hl])
      exact ⟨stk', C', h', hlen', ht'.trans ht2, hf'.trans hf2, hi'.trans hi2,
        hm'.trans hm2⟩
    | endGroup t =>
      have hd : d ≠ 0 := by
        intro h0
        rw [h0] at ht
        simp [trackDepth] at ht
      cases stk with
      | nil =>
        simp only [List.length_nil] at hl
        exact absurd hl.symm hd
      | cons g stk2 =>
        have hg2 : s.groups = g :: (stk2 ++ C :: base) := by simpa using hg
        have hEnd : (applyOp s (.endGroup t)).groups = stk2 ++ C :: base :=
          EndGroup_groups_cons s t g _ hg2
        refine ih (d - 1) d' _ stk2 C base ?_ hEnd ?_
        · simp only [trackDepth] at ht
          rwa [if_neg hd] at ht
        · simp only [List.length_cons] at hl
          omega
    | clearModifiedSettings =>
      exact ih d d' _ stk C base (by simpa [trackDepth] using ht)
        (by simpa [applyOp, ClearModifiedSettings] using hg) hl
    | setOutputCharset v sc =>
      exact ih d d' _ stk C base (by simpa [trackDepth] using ht)
        (by simpa [applyOp, SetOutputCharset_groups] using hg) hl
    | setStringFormat v sc =>
      exact ih d d' _ stk C base (by simpa [trackDepth] using ht)
        (by simpa [applyOp, SetStringFormat_groups] using hg) hl
    | setBoolFormat v sc =>
      exact ih d d' _ stk C base (by simpa [trackDepth] using ht)
        (by simpa [applyOp, SetBoolFormat_groups] using hg) hl
    | setBoolLengthFormat v sc =>
      exact ih d d' _ stk C base (by simpa [trackDepth] using ht)
        (by simpa [applyOp, SetBoolLengthFormat_groups] using hg) hl
    | setBoolCaseFormat v sc =>
      exact ih d d' _ stk C base (by simpa [trackDepth] using ht)
        (by simpa [applyOp, SetBoolCaseFormat_groups] using hg) hl
    | setIntFormat v sc =>
      exact ih d d' _ stk C base (by simpa [trackDepth] using ht)
        (by simpa [applyOp, SetIntFormat_groups] using hg) hl
    | setIndent v sc =>
      exact ih d d' _ stk C base (by simpa [trackDepth] using ht)
        (by simpa [applyOp, SetIndent_groups] using hg) hl
    | setPreCommentIndent v sc =>
      exact ih d d' _ stk C base (by simpa [trackDepth] using ht)
        (by simpa [applyOp, SetPreCommentIndent_groups] using hg) hl
    | setPostCommentIndent v sc =>
      exact ih d d' _ stk C base (by simpa [trackDepth] using ht)
        (by simpa [applyOp, SetPostCommentIndent_groups] using hg) hl
    | setFlowType gt v sc =>
      exact ih d d' _ stk C base (by simpa [trackDepth] using ht)
        (by simpa [applyOp, SetFlowType_groups] using hg) hl
    | setMapKeyFormat v sc =>
      exact ih d d' _ stk C base (by simpa [trackDepth] using ht)
        (by simpa [applyOp, SetMapKeyFormat_groups] using hg) hl
    | setFloatPrecision v sc =>
      exact ih d d' _ stk C base (by simpa [trackDepth] using ht)
        (by simpa [applyOp, SetFloatPrecision_groups] using hg) hl
    | setDoublePrecision v sc =>
      exact ih d d' _ stk C base (by simpa [trackDepth] using ht)
        (by simpa [applyOp, SetDoublePrecision_groups] using hg) hl
    | setLocalValue v =>
      exact ih d d' _ stk C base (by simpa [trackDepth] using ht)
        (by simpa [applyOp, SetLocalValue_groups] using hg) hl

theorem BeginNode_opts (s : EmitterState) : (BeginNode s).opts = s.opts := by
  cases hs : s.groups <;> simp [BeginNode, hs]

theorem BeginNode_modifiedSettings (s : EmitterState) :
    (BeginNode s).modifiedSettings = s.modifiedSettings := by
  cases hs : s.groups <;> simp [BeginNode, hs]

theorem BeginNode_CurGroupIndent (s : EmitterState) :
    CurGroupIndent (BeginNode s) = CurGroupIndent s := by
  cases hs : s.groups <;> simp [BeginNode, CurGroupIndent, hs]

theorem BeginGroup_opts (s : EmitterState) (t : GroupType) :
    (BeginGroup s t).opts = s.opts :=
  BeginNode_opts s

theorem BeginGroup_groups_spec (s : EmitterState) (t : GroupType) :
    ∃ g rest, (BeginGroup s t).groups = g :: rest ∧ g.type = t ∧
      g.modifiedSettings = s.modifiedSettings ∧ rest = (BeginNode s).groups :=
  ⟨_, _, rfl, rfl, BeginNode_modifiedSettings s, rfl⟩

theorem BeginGroup_CurGroupIndent (s : EmitterState) (t : GroupType) :
    CurGroupIndent (BeginGroup s t) =
      CurGroupIndent s + natOf (s.opts OptionId.m_indent) := by
  cases hs : s.groups <;>
    simp [BeginGroup, BeginNode, CurGroupIndent, GetIndent, hs]

theorem BeginGroup_CurGroupFlowType (s : EmitterState) (t : GroupType) :
    CurGroupFlowType (BeginGroup s t) =
      (if GetFlowType s t = EMITTER_MANIP.Flow then FlowType.Flow else FlowType.Block) := by
  cases hs : s.groups <;>
    simp [BeginGroup, BeginNode, CurGroupFlowType, GetFlowType, hs]

theorem foldl_BeginGroup_opts (ts : List GroupType) :
    ∀ s : EmitterState, (ts.foldl BeginGroup s).opts = s.opts := by
  induction ts with
  | nil => intro s; rfl
  | cons t ts ih =>
    intro s
    rw [List.foldl_cons, ih, BeginGroup_opts]

theorem foldl_BeginGroup_CurGroupIndent (w : Nat) (ts : List GroupType) :
    ∀ s : EmitterState, s.opts OptionId.m_indent = SettingValue.nat w →
      CurGroupIndent (ts.foldl BeginGroup s) = CurGroupIndent s + ts.length * w := by
  induction ts with
  | nil => intro s _; simp
  | cons t ts ih =>
    intro s hw
    rw [List.foldl_cons, ih (BeginGroup s t) (by rw [BeginGroup_opts]; exact hw),
      BeginGroup_CurGroupIndent, hw]
    show CurGroupIndent s + w + ts.length * w = CurGroupIndent s + (ts.length + 1) * w
    ring

theorem EndGroup_opts_matched (s : EmitterState) (t : GroupType) (g : Group)
    (rest : List Group) (h : s.groups = g :: rest) (hm : g.type = t) :
    (EndGroup s t).opts =
      restore (restore s.opts g.modifiedSettings) s.globalModifiedSettings := by
  simp only [EndGroup, h]
  rw [if_neg (show ¬g.type ≠ t by simp [hm])]

theorem EndGroup_matched_flags (s : EmitterState) (t : GroupType) (g : Group)
    (rest : List Group) (h : s.groups = g :: rest) (hm : g.type = t) :
    (EndGroup s t).isGood = s.isGood ∧ (EndGroup s t).lastError = s.lastError := by
  simp only [EndGroup, h]
  rw [if_neg (show ¬g.type ≠ t by simp [hm])]
  exact ⟨rfl, rfl⟩

/-- C1, counterexample: a Local set made inside an open context is not
restored by that context EndGroup.  BeginGroup(Seq); SetStringFormat(
SingleQuoted, Local); EndGroup(Seq) leaves the string format SingleQuoted,
not the Auto it held immediately before BeginGroup, although no Global set
ever occurred. -/
theorem claim1_counterexample :
    (runOps initState [.beginGroup .Seq, .setStringFormat .SingleQuoted .Local,
        .endGroup .Seq]).opts OptionId.m_strFmt =
      SettingValue.manip EMITTER_MANIP.SingleQuoted ∧
    initState.opts OptionId.m_strFmt = SettingValue.manip EMITTER_MANIP.Auto ∧
    (runOps initState [.beginGroup .Seq, .setStringFormat .SingleQuoted .Local,
        .endGroup .Seq]).globalModifiedSettings = [] :=
  ⟨by decide, by decide, by decide⟩

/-- C1 (amended): a Local set is scoped to the next context opened after it,
not to the context already open.  When Set(v, Local) with no pending local
record for the concept immediately precedes BeginGroup of C, and the calls
made while C is open never close C (trackDepth stays above the starting
level and returns to it), then immediately after C matching EndGroup the
concept holds the value from just before the Set — provided no Global set of
that concept is recorded by then. -/
theorem claim1_local_set_scoped_to_next_group (s0 : EmitterState) (o : OptionId)
    (v : SettingValue) (t : GroupType) (L : List EmitterOp)
    (hpend : s0.modifiedSettings = [])
    (hdepth : trackDepth 0 L = some 0)
    (hglob : lookupAssoc
      (runOps (BeginGroup (_Set s0 o v FmtScope.Local) t) L).globalModifiedSettings o
      = none) :
    (EndGroup (runOps (BeginGroup (_Set s0 o v FmtScope.Local) t) L) t).opts o
      = s0.opts o := by
  have hms : (_Set s0 o v FmtScope.Local).modifiedSettings = [(o, s0.opts o)] := by
    simp [_Set, setOpt, recordLocal, hpend, lookupAssoc]
  obtain ⟨Cg, base, hcons, htype, hmod, hbase⟩ :=
    BeginGroup_groups_spec (_Set s0 o v FmtScope.Local) t
  obtain ⟨stk', C', hG, hlen, ht', hf', hi', hm'⟩ :=
    runOps_keeps_enclosing L 0 0 (BeginGroup (_Set s0 o v FmtScope.Local) t) [] Cg base
      hdepth (by simpa using hcons) rfl
  have hstk : stk' = [] := List.length_eq_zero.mp hlen
  subst hstk
  have hG' : (runOps (BeginGroup (_Set s0 o v FmtScope.Local) t) L).groups
      = C' :: base := by simpa using hG
  rw [EndGroup_opts_matched _ t C' base hG' (ht'.trans htype)]
  rw [restore_lookup_none _ o _ hglob]
  rw [hm'.trans (hmod.trans hms), restore_cons]
  exact Function.update_same ..

/-- C1 witness for the amended theorem: string format set locally, a Seq
context opened and closed around a further local set, value back to Auto. -/
theorem claim1_witness :
    initState.modifiedSettings = [] ∧
    trackDepth 0 [.setStringFormat .Literal FmtScope.Local] = some 0 ∧
    lookupAssoc (runOps
        (BeginGroup (_Set initState OptionId.m_strFmt
          (SettingValue.manip EMITTER_MANIP.SingleQuoted) FmtScope.Local) .Seq)
        [.setStringFormat .Literal FmtScope.Local]).globalModifiedSettings
      OptionId.m_strFmt = none ∧
    (EndGroup (runOps
        (BeginGroup (_Set initState OptionId.m_strFmt
          (SettingValue.manip EMITTER_MANIP.SingleQuoted) FmtScope.Local) .Seq)
        [.setStringFormat .Literal FmtScope.Local]) .Seq).opts OptionId.m_strFmt
      = initState.opts OptionId.m_strFmt :=
  ⟨rfl, rfl, by decide,
    claim1_local_set_scoped_to_next_group initState OptionId.m_strFmt
      (SettingValue.manip EMITTER_MANIP.SingleQuoted) .Seq
      [.setStringFormat .Literal FmtScope.Local] rfl rfl (by decide)⟩

/-- C2: a Global set takes effect immediately, and EndGroup never undoes it:
when the last recorded global value of a concept is g, then after a matched
EndGroup — which first restores the popped context locally modified settings
— the concept holds g, resurfacing past the closed local override. -/
theorem claim2_global_set_survives_endgroup (s : EmitterState) (t : GroupType)
    (o : OptionId) (g : SettingValue) :
    (_Set s o g FmtScope.Global).opts o = g ∧
    (s.groups ≠ [] → CurGroupType s = t →
      (s.globalModifiedSettings.map Prod.fst).Nodup →
      lookupAssoc s.globalModifiedSettings o = some g →
      (EndGroup s t).opts o = g) := by
  constructor
  · show Function.update s.opts o g o = g
    exact Function.update_same ..
  · intro hne htype hnd hlook
    cases hs : s.groups with
    | nil => exact absurd hs hne
    | cons gg rest =>
      rw [EndGroup_opts_matched s t gg rest hs (by simpa [CurGroupType, hs] using htype)]
      exact restore_lookup_some _ o g _ hnd hlook

/-- C2 witness: a Global DoubleQuoted set made inside an open mapping, under
a Local SingleQuoted override of the same concept, still holds after the
mapping EndGroup. -/
theorem claim2_witness :
    (runOps initState [.beginGroup .Map, .setStringFormat .SingleQuoted FmtScope.Local,
        .setStringFormat .DoubleQuoted FmtScope.Global]).groups ≠ [] ∧
    (EndGroup (runOps initState [.beginGroup .Map,
        .setStringFormat .SingleQuoted FmtScope.Local,
        .setStringFormat .DoubleQuoted FmtScope.Global]) .Map).opts OptionId.m_strFmt
      = SettingValue.manip EMITTER_MANIP.DoubleQuoted :=
  ⟨by decide,
    (claim2_global_set_survives_endgroup
      (runOps initState [.beginGroup .Map, .setStringFormat .SingleQuoted FmtScope.Local,
        .setStringFormat .DoubleQuoted FmtScope.Global]) .Map OptionId.m_strFmt
      (SettingValue.manip EMITTER_MANIP.DoubleQuoted)).2
      (by decide) (by decide) (by decide) (by decide)⟩

/-- C3: context indent is absolute.  From a top-level state with configured
indent width w, the context opened by the n-th nested BeginGroup reports
indent n times w, and with positive w the indent strictly increases with
depth. -/
theorem claim3_absolute_indent (s : EmitterState) (w : Nat) (ts : List GroupType)
    (t : GroupType) (hw : s.opts OptionId.m_indent = SettingValue.nat w)
    (hg : s.groups = []) :
    CurGroupIndent (ts.foldl BeginGroup s) = ts.length * w ∧
    CurGroupIndent (BeginGroup (ts.foldl BeginGroup s) t) = (ts.length + 1) * w ∧
    (0 < w → CurGroupIndent (ts.foldl BeginGroup s)
      < CurGroupIndent (BeginGroup (ts.foldl BeginGroup s) t)) := by
  have h0 : CurGroupIndent s = 0 := by simp [CurGroupIndent, hg]
  have h1 : CurGroupIndent (ts.foldl BeginGroup s) = ts.length * w := by
    rw [foldl_BeginGroup_CurGroupIndent w ts s hw, h0, Nat.zero_add]
  have h2 : CurGroupIndent (BeginGroup (ts.foldl BeginGroup s) t) = (ts.length + 1) * w := by
    rw [BeginGroup_CurGroupIndent, foldl_BeginGroup_opts, hw, h1]
    show ts.length * w + w = (ts.length + 1) * w
    ring
  refine ⟨h1, h2, fun hwpos => ?_⟩
  rw [h1, h2]
  calc ts.length * w < ts.length * w + w := Nat.lt_add_of_pos_right hwpos
    _ = (ts.length + 1) * w := by ring

/-- C3 witness: width 2, two nested groups then a third. -/
theorem claim3_witness :
    initState.opts OptionId.m_indent = SettingValue.nat 2 ∧
    initState.groups = [] ∧
    (CurGroupIndent ([GroupType.Map, GroupType.Seq].foldl BeginGroup initState)
        = [GroupType.Map, GroupType.Seq].length * 2 ∧
      CurGroupIndent (BeginGroup ([GroupType.Map, GroupType.Seq].foldl BeginGroup initState)
          GroupType.Seq) = ([GroupType.Map, GroupType.Seq].length + 1) * 2 ∧
      (0 < 2 → CurGroupIndent ([GroupType.Map, GroupType.Seq].foldl BeginGroup initState)
        < CurGroupIndent (BeginGroup
            ([GroupType.Map, GroupType.Seq].foldl BeginGroup initState) GroupType.Seq))) :=
  ⟨rfl, rfl, claim3_absolute_indent initState 2 [GroupType.Map, GroupType.Seq]
    GroupType.Seq rfl rfl⟩

/-- C4, counterexample: in the scenario BeginGroup(Mapping);
SetFlowType(Map, Flow, Local); BeginGroup(Sequence), the already-open
mapping still reports Block (its layout was fixed at BeginGroup), and the
inner sequence opens with Block as well (it reads the sequence default,
which the map-layout set never touched) — both against the claim. -/
theorem claim4_counterexample :
    ¬ CurGroupFlowType (runOps initState [.beginGroup .Map,
        .setFlowType .Map .Flow FmtScope.Local]) = FlowType.Flow ∧
    ¬ CurGroupFlowType (runOps initState [.beginGroup .Map,
        .setFlowType .Map .Flow FmtScope.Local, .beginGroup .Seq]) = FlowType.Flow :=
  ⟨by decide, by decide⟩

/-- C4 (amended): with indent width 2, after BeginGroup(Mapping) the layout
is Block and the indent 2; the Local Flow set for the mapping layout updates
the stored map default but not the reported layout of the already-open
mapping, which stays Block; the inner sequence opens Block (from the
untouched sequence default) with indent 4; after both EndGroups the mapping
default is Block again, and the next mapping opened reports Block. -/
theorem claim4_amended_scenario :
    CurGroupIndent (runOps initState [.beginGroup .Map]) = 2 ∧
    CurGroupFlowType (runOps initState [.beginGroup .Map]) = FlowType.Block ∧
    (runOps initState [.beginGroup .Map, .setFlowType .Map .Flow FmtScope.Local]).opts
      OptionId.m_mapFmt = SettingValue.manip EMITTER_MANIP.Flow ∧
    CurGroupFlowType (runOps initState [.beginGroup .Map,
      .setFlowType .Map .Flow FmtScope.Local]) = FlowType.Block ∧
    CurGroupFlowType (runOps initState [.beginGroup .Map,
      .setFlowType .Map .Flow FmtScope.Local, .beginGroup .Seq]) = FlowType.Block ∧
    CurGroupIndent (runOps initState [.beginGroup .Map,
      .setFlowType .Map .Flow FmtScope.Local, .beginGroup .Seq]) = 4 ∧
    (runOps initState [.beginGroup .Map, .setFlowType .Map .Flow FmtScope.Local,
      .beginGroup .Seq, .endGroup .Seq, .endGroup .Map]).opts OptionId.m_mapFmt
      = SettingValue.manip EMITTER_MANIP.Block ∧
    CurGroupFlowType (runOps initState [.beginGroup .Map,
      .setFlowType .Map .Flow FmtScope.Local, .beginGroup .Seq, .endGroup .Seq,
      .endGroup .Map, .beginGroup .Map]) = FlowType.Block := by
  refine ⟨by decide, by decide, by decide, by decide, by decide, by decide, by decide,
    by decide⟩

/-- C5: flow is contagious downward.  If the innermost open context reports
Flow, any BeginGroup opens its context with Flow regardless of the
configured defaults; otherwise the new context layout comes from the
configured default for the requested kind. -/
theorem claim5_flow_contagion (s : EmitterState) (t : GroupType) :
    (CurGroupFlowType s = FlowType.Flow →
      CurGroupFlowType (BeginGroup s t) = FlowType.Flow) ∧
    (CurGroupFlowType s ≠ FlowType.Flow →
      CurGroupFlowType (BeginGroup s t) =
        (if manipOf (s.opts (if t = GroupType.Seq then OptionId.m_seqFmt
            else OptionId.m_mapFmt)) = EMITTER_MANIP.Flow
          then FlowType.Flow else FlowType.Block)) := by
  constructor
  · intro h
    rw [BeginGroup_CurGroupFlowType]
    simp [GetFlowType, h]
  · intro h
    rw [BeginGroup_CurGroupFlowType]
    simp [GetFlowType, h]

/-- C5 witness: inside a Flow sequence, a mapping opens Flow although the
configured mapping default is Block. -/
theorem claim5_witness :
    CurGroupFlowType (runOps initState [.setFlowType .Seq .Flow FmtScope.Global,
      .beginGroup .Seq]) = FlowType.Flow ∧
    (runOps initState [.setFlowType .Seq .Flow FmtScope.Global, .beginGroup .Seq]).opts
      OptionId.m_mapFmt = SettingValue.manip EMITTER_MANIP.Block ∧
    CurGroupFlowType (BeginGroup (runOps initState
      [.setFlowType .Seq .Flow FmtScope.Global, .beginGroup .Seq]) .Map)
      = FlowType.Flow :=
  ⟨by decide, by decide,
    (claim5_flow_contagion (runOps initState [.setFlowType .Seq .Flow FmtScope.Global,
      .beginGroup .Seq]) .Map).1 (by decide)⟩

/-- C6: EndGroup raises the sticky UnmatchedGroupTag failure exactly when
the stack is empty or the top context kind differs from the requested kind;
it returns normally in all cases, and a matched EndGroup leaves the good
flag and the error message as they were. -/
theorem claim6_unmatched_group_tag (s : EmitterState) (t : GroupType) :
    ((s.groups = [] ∨ CurGroupType s ≠ t) →
      (EndGroup s t).isGood = false ∧
      (EndGroup s t).lastError = some UNMATCHED_GROUP_TAG) ∧
    (s.groups ≠ [] → CurGroupType s = t →
      (EndGroup s t).isGood = s.isGood ∧ (EndGroup s t).lastError = s.lastError) := by
  constructor
  · intro h
    cases hs : s.groups with
    | nil => simp [EndGroup, hs, SetError]
    | cons g rest =>
      have hne : g.type ≠ t := by
        rcases h with h | h
        · rw [hs] at h
          cases h
        · simpa [CurGroupType, hs] using h
      simp [EndGroup, hs, SetError, hne]
  · intro hne htype
    cases hs : s.groups with
    | nil => exact absurd hs hne
    | cons g rest =>
      exact EndGroup_matched_flags s t g rest hs (by simpa [CurGroupType, hs] using htype)

/-- C6 witness: EndGroup on the empty stack sets the sticky error. -/
theorem claim6_witness :
    (EndGroup initState .Seq).isGood = false ∧
    (EndGroup initState .Seq).lastError = some UNMATCHED_GROUP_TAG :=
  (claim6_unmatched_group_tag initState .Seq).1 (Or.inl rfl)

/-- C7: BeginNode resets the anchor and tag flags and increments the
innermost open context child count by exactly one; with no open context, the
group stack is untouched. -/
theorem claim7_begin_node (s : EmitterState) :
    (BeginNode s).hasAnchor = false ∧ (BeginNode s).hasTag = false ∧
    (s.groups ≠ [] → CurGroupChildCount (BeginNode s) = CurGroupChildCount s + 1) ∧
    (s.groups = [] → (BeginNode s).groups = s.groups) := by
  refine ⟨?_, ?_, ?_, ?_⟩
  · cases hs : s.groups <;> simp [BeginNode, hs]
  · cases hs : s.groups <;> simp [BeginNode, hs]
  · intro h
    cases hs : s.groups with
    | nil => exact absurd hs h
    | cons g rest => simp [BeginNode, CurGroupChildCount, hs]
  · intro h
    simp [BeginNode, h]

/-- C7 witness: inside one sequence, the child count goes 0, then three
BeginNode calls make it 1, 2, 3; the incremental step comes from the
theorem. -/
theorem claim7_witness :
    (BeginGroup initState .Seq).groups ≠ [] ∧
    CurGroupChildCount (BeginNode (BeginGroup initState .Seq))
      = CurGroupChildCount (BeginGroup initState .Seq) + 1 ∧
    CurGroupChildCount (BeginGroup initState .Seq) = 0 ∧
    CurGroupChildCount (BeginNode (BeginNode (BeginNode (BeginGroup initState .Seq)))) = 3 :=
  ⟨by decide, (claim7_begin_node (BeginGroup initState .Seq)).2.2.1 (by decide),
    by decide, by decide⟩

/-- C8: every setter rejects a value outside its concept domain by returning
false with the state exactly unchanged — no option value, no log, no stack
and no error flag is touched. -/
theorem claim8_invalid_value_rejected (s : EmitterState) (sc : FmtScope) :
    (∀ v, v ≠ EMITTER_MANIP.EmitNonAscii → v ≠ EMITTER_MANIP.EscapeNonAscii →
      SetOutputCharset s v sc = (false, s)) ∧
    (∀ v, v ≠ EMITTER_MANIP.Auto → v ≠ EMITTER_MANIP.SingleQuoted →
      v ≠ EMITTER_MANIP.DoubleQuoted → v ≠ EMITTER_MANIP.Literal →
      SetStringFormat s v sc = (false, s)) ∧
    (∀ v, v ≠ EMITTER_MANIP.OnOffBool → v ≠ EMITTER_MANIP.TrueFalseBool →
      v ≠ EMITTER_MANIP.YesNoBool → SetBoolFormat s v sc = (false, s)) ∧
    (∀ v, v ≠ EMITTER_MANIP.LongBool → v ≠ EMITTER_MANIP.ShortBool →
      SetBoolLengthFormat s v sc = (false, s)) ∧
    (∀ v, v ≠ EMITTER_MANIP.UpperCase → v ≠ EMITTER_MANIP.LowerCase →
      v ≠ EMITTER_MANIP.CamelCase → SetBoolCaseFormat s v sc = (false, s)) ∧
    (∀ v, v ≠ EMITTER_MANIP.Dec → v ≠ EMITTER_MANIP.Hex → v ≠ EMITTER_MANIP.Oct →
      SetIntFormat s v sc = (false, s)) ∧
    SetIndent s 0 sc = (false, s) ∧
    SetPreCommentIndent s 0 sc = (false, s) ∧
    SetPostCommentIndent s 0 sc = (false, s) ∧
    (∀ gt v, v ≠ EMITTER_MANIP.Block → v ≠ EMITTER_MANIP.Flow →
      SetFlowType s gt v sc = (false, s)) ∧
    (∀ v, v ≠ EMITTER_MANIP.Auto → v ≠ EMITTER_MANIP.LongKey →
      SetMapKeyFormat s v sc = (false, s)) ∧
    (∀ v : Int, ¬(0 ≤ v ∧ v ≤ 6) → SetFloatPrecision s v sc = (false, s)) ∧
    (∀ v : Int, ¬(0 ≤ v ∧ v ≤ 15) → SetDoublePrecision s v sc = (false, s)) := by
  refine ⟨?_, ?_, ?_, ?_, ?_, ?_, rfl, rfl, rfl, ?_, ?_, ?_, ?_⟩
  · intro v h1 h2
    cases v <;> simp_all [SetOutputCharset]
  · intro v h1 h2 h3 h4
    cases v <;> simp_all [SetStringFormat]
  · intro v h1 h2 h3
    cases v <;> simp_all [SetBoolFormat]
  · intro v h1 h2
    cases v <;> simp_all [SetBoolLengthFormat]
  · intro v h1 h2 h3
    cases v <;> simp_all [SetBoolCaseFormat]
  · intro v h1 h2 h3
    cases v <;> simp_all [SetIntFormat]
  · intro gt v h1 h2
    cases v <;> simp_all [SetFlowType]
  · intro v h1 h2
    cases v <;> simp_all [SetMapKeyFormat]
  · intro v hv
    rw [SetFloatPrecision,
      if_pos (show v < 0 ∨ floatDigits10 < v by simp only [floatDigits10]; omega)]
  · intro v hv
    rw [SetDoublePrecision,
      if_pos (show v < 0 ∨ doubleDigits10 < v by simp only [doubleDigits10]; omega)]

/-- C8 witness: one out-of-domain value per setter, each rejected with the
state handed back unchanged. -/
theorem claim8_witness :
    SetOutputCharset initState .Flow FmtScope.Global = (false, initState) ∧
    SetStringFormat initState .Flow FmtScope.Global = (false, initState) ∧
    SetBoolFormat initState .Flow FmtScope.Global = (false, initState) ∧
    SetBoolLengthFormat initState .Flow FmtScope.Global = (false, initState) ∧
    SetBoolCaseFormat initState .Flow FmtScope.Global = (false, initState) ∧
    SetIntFormat initState .Flow FmtScope.Global = (false, initState) ∧
    SetIndent initState 0 FmtScope.Global = (false, initState) ∧
    SetPreCommentIndent initState 0 FmtScope.Global = (false, initState) ∧
    SetPostCommentIndent initState 0 FmtScope.Global = (false, initState) ∧
    SetFlowType initState .Seq .Dec FmtScope.Global = (false, initState) ∧
    SetMapKeyFormat initState .Flow FmtScope.Global = (false, initState) ∧
    SetFloatPrecision initState 7 FmtScope.Global = (false, initState) ∧
    SetDoublePrecision initState 16 FmtScope.Global = (false, initState) := by
  obtain ⟨h1, h2, h3, h4, h5, h6, h7, h8, h9, h10, h11, h12, h13⟩ :=
    claim8_invalid_value_rejected initState FmtScope.Global
  exact ⟨h1 .Flow (by decide) (by decide),
    h2 .Flow (by decide) (by decide) (by decide) (by decide),
    h3 .Flow (by decide) (by decide) (by decide),
    h4 .Flow (by decide) (by decide),
    h5 .Flow (by decide) (by decide) (by decide),
    h6 .Flow (by decide) (by decide) (by decide),
    h7, h8, h9,
    h10 .Seq .Dec (by decide) (by decide),
    h11 .Flow (by decide) (by decide),
    h12 7 (by omega), h13 16 (by omega)⟩

/-- C9: SetFloatPrecision accepts exactly the integers in [0, 6] and
SetDoublePrecision exactly those in [0, 15] (digits10 of IEEE single and
double precision); outside the range the call returns false with the state —
precision value and error flag included — unchanged. -/
theorem claim9_precision_bounds (s : EmitterState) (sc : FmtScope) (v : Int) :
    ((SetFloatPrecision s v sc).1 = true ↔ 0 ≤ v ∧ v ≤ 6) ∧
    ((SetDoublePrecision s v sc).1 = true ↔ 0 ≤ v ∧ v ≤ 15) ∧
    (¬(0 ≤ v ∧ v ≤ 6) → SetFloatPrecision s v sc = (false, s)) ∧
    (¬(0 ≤ v ∧ v ≤ 15) → SetDoublePrecision s v sc = (false, s)) := by
  refine ⟨?_, ?_, ?_, ?_⟩
  · rw [SetFloatPrecision]
    split
    · rename_i h
      simp only [floatDigits10] at h
      simp
      omega
    · rename_i h
      simp only [floatDigits10] at h
      simp
      omega
  · rw [SetDoublePrecision]
    split
    · rename_i h
      simp only [doubleDigits10] at h
      simp
      omega
    · rename_i h
      simp only [doubleDigits10] at h
      simp
      omega
  · intro hv
    rw [SetFloatPrecision,
      if_pos (show v < 0 ∨ floatDigits10 < v by simp only [floatDigits10]; omega)]
  · intro hv
    rw [SetDoublePrecision,
      if_pos (show v < 0 ∨ doubleDigits10 < v by simp only [doubleDigits10]; omega)]

/-- C9 witness: 16 is rejected by the double setter and 6 accepted by the
float setter, through the bound equivalences of the theorem. -/
theorem claim9_witness :
    SetDoublePrecision initState 16 FmtScope.Global = (false, initState) ∧
    (SetFloatPrecision initState 6 FmtScope.Global).1 = true :=
  ⟨(claim9_precision_bounds initState FmtScope.Global 16).2.2.2 (by omega),
    ((claim9_precision_bounds initState FmtScope.Global 6).1).mpr (by omega)⟩

/-- C10: a mismatched EndGroup on a non-empty stack is not atomic — the top
context is popped all the same (the group list shrinks to its tail, so
CurGroupType afterwards reports the enclosing context), while the indent
accumulator decrement and the restore of the popped context locally modified
settings are both skipped, and the sticky error is set. -/
theorem claim10_mismatch_not_atomic (s : EmitterState) (t : GroupType)
    (hne : s.groups ≠ []) (hm : CurGroupType s ≠ t) :
    (EndGroup s t).groups = s.groups.tail ∧
    (EndGroup s t).curIndent = s.curIndent ∧
    (EndGroup s t).opts = s.opts ∧
    (EndGroup s t).isGood = false ∧
    (EndGroup s t).lastError = some UNMATCHED_GROUP_TAG := by
  cases hs : s.groups with
  | nil => exact absurd hs hne
  | cons g rest =>
    have hgt : g.type ≠ t := by simpa [CurGroupType, hs] using hm
    simp [EndGroup, hs, SetError, hgt]

/-- C10 witness: EndGroup(Seq) while a Map is on top pops the Map, reports
the enclosing Seq, and leaves indent accumulator and option values alone. -/
theorem claim10_witness :
    (runOps initState [.beginGroup .Seq, .beginGroup .Map]).groups ≠ [] ∧
    CurGroupType (runOps initState [.beginGroup .Seq, .beginGroup .Map]) ≠ GroupType.Seq ∧
    CurGroupType (EndGroup (runOps initState [.beginGroup .Seq, .beginGroup .Map]) .Seq)
      = GroupType.Seq ∧
    ((EndGroup (runOps initState [.beginGroup .Seq, .beginGroup .Map]) .Seq).groups
        = (runOps initState [.beginGroup .Seq, .beginGroup .Map]).groups.tail ∧
      (EndGroup (runOps initState [.beginGroup .Seq, .beginGroup .Map]) .Seq).curIndent
        = (runOps initState [.beginGroup .Seq, .beginGroup .Map]).curIndent ∧
      (EndGroup (runOps initState [.beginGroup .Seq, .beginGroup .Map]) .Seq).opts
        = (runOps initState [.beginGroup .Seq, .beginGroup .Map]).opts ∧
      (EndGroup (runOps initState [.beginGroup .Seq, .beginGroup .Map]) .Seq).isGood
        = false ∧
      (EndGroup (runOps initState [.beginGroup .Seq, .beginGroup .Map]) .Seq).lastError
        = some UNMATCHED_GROUP_TAG) :=
  ⟨by decide, by decide, by decide,
    claim10_mismatch_not_atomic (runOps initState [.beginGroup .Seq, .beginGroup .Map])
      .Seq (by decide) (by decide)⟩

end YamlCpp
